import Mathlib

/-!
Shallow embedding of the go-exif-gps-extract program (src/main.go) and
verification of its specified properties.

The program scans a directory tree for image files, extracts the four GPS
EXIF tags from each image, formats the coordinates and emits CSV/HTML
reports.  Machine integers in the Go source are uint32 (the go-exif
Rational fields); all arithmetic performed on them here is division, which
cannot overflow, so they are modelled as Nat.
-/

namespace ExifGps

/-- exifCommon.Rational from go-exif: a numerator/denominator pair of uint32. -/
structure Rational where
  numerator : Nat
  denominator : Nat
deriving DecidableEq, Repr

/-- Models Go `fmt.Sprintf("%.2f", float32(num)/float32(den))` for `den ≠ 0`
(src/main.go line 220) by rounding the exact rational num/den to two decimal
places with ties to even.  This agrees with the Go float32 computation
whenever the float32 division and rounding are exact, which holds for every
concrete input considered in this development (e.g. 1200/100 = 12.0). -/
def formatSeconds2 (num den : Nat) : String :=
  let scaled := num * 100
  let q := scaled / den
  let r := scaled % den
  let rounded :=
    if 2 * r < den then q
    else if den < 2 * r then q + 1
    else if q % 2 = 0 then q else q + 1
  let whole := rounded / 100
  let frac := rounded % 100
  toString whole ++ "." ++ (if frac < 10 then "0" ++ toString frac else toString frac)

/-- parseGPSPosition (src/main.go lines 206-225).  The Go code indexes the
slice at positions 0, 1 and 2 unconditionally, so a slice with fewer than
three elements makes the program stop with an index-out-of-range runtime
fault, modelled here as `none`.  The degree separator appended at line 212 is
the two-character byte sequence U+00C2 U+00B0 exactly as written in the
source literal. -/
def parseGPSPosition (gpsPosArr : List Rational) : Option String :=
  match gpsPosArr with
  | r0 :: r1 :: r2 :: _ =>
    let p0 := if r0.denominator ≠ 0 then toString (r0.numerator / r0.denominator) else "0"
    let p1 := if r1.denominator ≠ 0 then toString (r1.numerator / r1.denominator) else "0"
    let p2 := if r2.denominator ≠ 0
              then formatSeconds2 r2.numerator r2.denominator ++ "''"
              else "0''"
    some (p0 ++ "Â°" ++ p1 ++ "'" ++ p2)
  | _ => none

def GPSLongitudeRef : String := "GPSLongitudeRef"
def GPSLatitudeRef : String := "GPSLatitudeRef"
def GPSLongitude : String := "GPSLongitude"
def GPSLatitude : String := "GPSLatitude"

/-- The dynamically typed value of a flattened EXIF tag.  The Go type
assertions `value.(string)` and `value.([]exifCommon.Rational)` succeed
exactly on the first two shapes; `other` stands for every other dynamic
type. -/
inductive TagValue where
  | str (s : String)
  | rationals (l : List Rational)
  | other
deriving DecidableEq, Repr

/-- One entry of the flat tag list returned by GetFlatExifDataUniversalSearch. -/
structure ExifTag where
  tagName : String
  value : TagValue
deriving DecidableEq, Repr

/-- The four local variables accumulated by the tag loop of
extractExifDataFromImage (src/main.go lines 139-146), all initialised to the
empty string. -/
structure GPSFields where
  latitudeDirection : String
  longitudeDirection : String
  latitudeValue : String
  longitudeValue : String
deriving DecidableEq, Repr

def initialFields : GPSFields := ⟨"", "", "", ""⟩

/-- One iteration of the tag switch in extractExifDataFromImage
(src/main.go lines 166-185).  A failed type assertion leaves the fields
unchanged; `none` models the index-out-of-range fault propagating out of
parseGPSPosition. -/
def processTag (fields : GPSFields) (tag : ExifTag) : Option GPSFields :=
  if tag.tagName = GPSLatitudeRef then
    match tag.value with
    | .str direction => some { fields with latitudeDirection := direction }
    | _ => some fields
  else if tag.tagName = GPSLatitude then
    match tag.value with
    | .rationals arr => (parseGPSPosition arr).map (fun v => { fields with latitudeValue := v })
    | _ => some fields
  else if tag.tagName = GPSLongitudeRef then
    match tag.value with
    | .str direction => some { fields with longitudeDirection := direction }
    | _ => some fields
  else if tag.tagName = GPSLongitude then
    match tag.value with
    | .rationals arr => (parseGPSPosition arr).map (fun v => { fields with longitudeValue := v })
    | _ => some fields
  else some fields

/-- The whole tag loop of extractExifDataFromImage. -/
def processTags (fields : GPSFields) : List ExifTag → Option GPSFields
  | [] => some fields
  | tag :: rest =>
    match processTag fields tag with
    | some fields2 => processTags fields2 rest
    | none => none

/-- The final-string composition of extractExifDataFromImage
(src/main.go lines 187-196): the Go code tests `value+direction == ""` and
substitutes the sentinel, otherwise keeps the concatenation. -/
def composeFinal (value direction : String) : String :=
  if value ++ direction = "" then "Not available" else value ++ direction

/-- The exifData record (src/main.go lines 55-57). -/
structure exifData where
  FilePath : String
  Latitude : String
  Longitude : String
deriving DecidableEq, Repr

/-- The tag-processing and composition part of extractExifDataFromImage
(src/main.go lines 166-203), applied once the flat tag list has been
obtained.  `none` models the runtime fault from parseGPSPosition. -/
def buildRecordFromTags (imageFilePath : String) (exifTags : List ExifTag) : Option exifData :=
  (processTags initialFields exifTags).map (fun f =>
    { FilePath := imageFilePath
      Latitude := composeFinal f.latitudeValue f.latitudeDirection
      Longitude := composeFinal f.longitudeValue f.longitudeDirection })

/-- What the fallible early steps of extractExifDataFromImage observe about a
file: ioutil.ReadFile fails, exif.SearchAndExtractExif returns ErrNoExif or
another error, GetFlatExifDataUniversalSearch fails, or the flat tag list is
obtained. -/
inductive FileContent where
  | unreadable (errMsg : String)
  | noExif (errMsg : String)
  | decodeError (errMsg : String)
  | flattenError (errMsg : String)
  | tags (exifTags : List ExifTag)
deriving DecidableEq, Repr

/-- Result of extractExifDataFromImage: a record, a returned error (logged
and skipped by the caller), or a runtime fault that terminates the process. -/
inductive BuildResult where
  | ok (record : exifData)
  | err (msg : String)
  | fault
deriving DecidableEq, Repr

/-- extractExifDataFromImage (src/main.go lines 138-204), with the external
I/O and EXIF-decoding steps abstracted by `FileContent`.  Error messages are
formatted exactly as the fmt.Errorf calls in the source format them. -/
def extractExifDataFromImage (imageFilePath : String) (content : FileContent) : BuildResult :=
  match content with
  | .unreadable e =>
    .err ("error reading from file: " ++ imageFilePath ++ ", with error: " ++ e)
  | .noExif e =>
    .err ("no EXIF data found in the file: " ++ imageFilePath ++ ", with error: " ++ e)
  | .decodeError e =>
    .err ("error reading exif data from file: " ++ imageFilePath ++ ", with error: " ++ e)
  | .flattenError e =>
    .err ("error fetching flat exif data from rawData: " ++ imageFilePath ++ ", with error: " ++ e)
  | .tags exifTags =>
    match buildRecordFromTags imageFilePath exifTags with
    | some record => .ok record
    | none => .fault

def allowedExtensions : List String := [".jpeg", ".jpg", ".png", ".gif"]

/-- Models Go `strings.HasSuffix s suffix`: character-level suffix test,
which coincides with Go's byte-level suffix test on well-formed UTF-8
strings. -/
def hasSuffix (s suffix : String) : Bool :=
  suffix.data.isSuffixOf s.data

/-- hasValidExtension (src/main.go lines 244-251): the Go loop returns true
as soon as one extension matches, i.e. it is `List.any`. -/
def hasValidExtension (name : String) : Bool :=
  allowedExtensions.any (fun ext => hasSuffix name ext)

/-- One invocation of the filepath.WalkDir callback in main (src/main.go
lines 74-88): the visited path, the entry name (fileInfo.Name()), the error
argument WalkDir passed in, and — for entries that get that far — what
reading and decoding the file yields. -/
structure VisitEvent where
  path : String
  name : String
  walkErr : Option String
  content : FileContent
deriving DecidableEq, Repr

/-- Result of the WalkDir call in main, together with the messages logged by
the callback: the accumulated records, an error that aborted the walk (the
callback returns the non-nil `err` it receives, which makes WalkDir stop),
or a runtime fault. -/
inductive WalkResult where
  | ok (records : List exifData) (logs : List String)
  | error (e : String) (logs : List String)
  | fault (logs : List String)
deriving DecidableEq, Repr

/-- The WalkDir callback of main applied to the remaining visit sequence,
carrying the accumulated records and logged messages (src/main.go lines
74-88).  A non-nil `err` argument is logged and returned, aborting the whole
walk; a failed record build is logged and skipped; a successful build is
appended. -/
def aggregateAux (acc : List exifData) (logs : List String) : List VisitEvent → WalkResult
  | [] => .ok acc logs
  | ev :: rest =>
    match ev.walkErr with
    | some e =>
      .error e (logs ++ ["error while walking directory: " ++ ev.path ++ ", with error: " ++ e])
    | none =>
      if hasValidExtension ev.name then
        match extractExifDataFromImage ev.path ev.content with
        | .ok record => aggregateAux (acc ++ [record]) logs rest
        | .err msg => aggregateAux acc (logs ++ [msg]) rest
        | .fault => .fault logs
      else aggregateAux acc logs rest

/-- The directory-walk aggregation of main over a given visitation sequence. -/
def aggregate (events : List VisitEvent) : WalkResult := aggregateAux [] [] events

/-- Outcomes of the two os.Create calls a run may make. -/
structure ReportEnv where
  csvCreate : Except String Unit
  htmlCreate : Except String Unit

/-- createFile (src/main.go lines 227-233): on an os.Create failure it calls
log.Fatalf, which terminates the whole process; `none` models that
termination.  (The error-handling branches in writeToCSV/writeToHTML are
consequently unreachable.) -/
def createFile (osCreate : Except String Unit) : Option Unit :=
  match osCreate with
  | .ok _ => some ()
  | .error _ => none

/-- Observable outcome of a run: which report files were created and
written, whether the process terminated via log.Fatalf or a runtime fault,
and the WalkDir error main logged before returning early, if any.  In every
state where `csvWritten`/`htmlWritten` is false, the corresponding
os.Create was never reached, so the file was not created. -/
structure RunOutcome where
  csvWritten : Bool
  htmlWritten : Bool
  fatalExit : Bool
  walkError : Option String
deriving DecidableEq, Repr

/-- The report-emission phase of main (src/main.go lines 94-101):
writeToHTML only, writeToCSV only, or writeToCSV followed by writeToHTML.
A createFile failure is a fatal process exit, so nothing after it runs. -/
def runReports (htmlFlag csvFlag : Bool) (env : ReportEnv) : RunOutcome :=
  if htmlFlag && !csvFlag then
    match createFile env.htmlCreate with
    | some _ => ⟨false, true, false, none⟩
    | none => ⟨false, false, true, none⟩
  else if !htmlFlag && csvFlag then
    match createFile env.csvCreate with
    | some _ => ⟨true, false, false, none⟩
    | none => ⟨false, false, true, none⟩
  else
    match createFile env.csvCreate with
    | none => ⟨false, false, true, none⟩
    | some _ =>
      match createFile env.htmlCreate with
      | none => ⟨true, false, true, none⟩
      | some _ => ⟨true, true, false, none⟩

/-- main (src/main.go lines 59-102) after flag parsing: walk the directory,
and on a walk error log it and return without writing any report; otherwise
emit the reports selected by the flags. -/
def mainModel (htmlFlag csvFlag : Bool) (events : List VisitEvent) (env : ReportEnv) : RunOutcome :=
  match aggregate events with
  | .error e _ => ⟨false, false, false, some e⟩
  | .fault _ => ⟨false, false, true, none⟩
  | .ok _ _ => runReports htmlFlag csvFlag env

/-! ## Helper lemmas -/

theorem append_eq_empty_iff (v d : String) : v ++ d = "" ↔ v = "" ∧ d = "" := by
  constructor
  · intro h
    cases v with | mk vd =>
    cases d with | mk dd =>
    have h2 : vd ++ dd = ([] : List Char) := congrArg String.data h
    have h3 := List.append_eq_nil.mp h2
    exact ⟨congrArg String.mk h3.1, congrArg String.mk h3.2⟩
  · rintro ⟨rfl, rfl⟩
    rfl

theorem processTag_notGPS (fields : GPSFields) (t : ExifTag)
    (h1 : t.tagName ≠ GPSLatitudeRef) (h2 : t.tagName ≠ GPSLatitude)
    (h3 : t.tagName ≠ GPSLongitudeRef) (h4 : t.tagName ≠ GPSLongitude) :
    processTag fields t = some fields := by
  unfold processTag
  rw [if_neg h1, if_neg h2, if_neg h3, if_neg h4]

theorem processTags_notGPS (fields : GPSFields) (tags : List ExifTag)
    (h : ∀ t ∈ tags, t.tagName ≠ GPSLatitudeRef ∧ t.tagName ≠ GPSLatitude
          ∧ t.tagName ≠ GPSLongitudeRef ∧ t.tagName ≠ GPSLongitude) :
    processTags fields tags = some fields := by
  induction tags with
  | nil => rfl
  | cons t rest ih =>
    obtain ⟨h1, h2, h3, h4⟩ := h t (List.mem_cons_self t rest)
    simp only [processTags, processTag_notGPS fields t h1 h2 h3 h4]
    exact ih fun u hu => h u (List.mem_cons_of_mem t hu)

/-! ## Claims -/

/-- C1, counterexample: a GPSLatitude tag whose value is a rational slice of
only two elements is not ignored: the type assertion to []Rational succeeds
and parseGPSPosition indexes the slice out of range, a runtime fault — so it
is false that every value not interpretable as a 3-element triplet is
ignored without any error or fault. -/
theorem C1_counterexample :
    extractExifDataFromImage "images/a.jpg"
        (.tags [⟨"GPSLatitude", .rationals [⟨1, 1⟩, ⟨2, 1⟩]⟩]) = .fault := by decide

/-- C1 (amended): a GPSLatitude or GPSLongitude tag whose value is not a
rational slice at all is ignored without error and leaves all fields (in
particular the corresponding value field) unchanged; but a value that is a
rational slice with fewer than 3 elements is not ignored — processing it is
a runtime index-out-of-range fault. -/
theorem C1_ignore_or_fault (fields : GPSFields) (name : String) (v : TagValue)
    (hname : name = GPSLatitude ∨ name = GPSLongitude)
    (hv : ∀ l, v ≠ TagValue.rationals l) :
    processTag fields ⟨name, v⟩ = some fields
      ∧ ∀ l : List Rational, l.length < 3 →
          processTag fields ⟨name, TagValue.rationals l⟩ = none := by
  constructor
  · rcases hname with h | h <;> subst h <;>
      cases v with
      | str s =>
        simp [processTag, GPSLatitude, GPSLongitude, GPSLatitudeRef, GPSLongitudeRef]
      | rationals l => exact absurd rfl (hv l)
      | other =>
        simp [processTag, GPSLatitude, GPSLongitude, GPSLatitudeRef, GPSLongitudeRef]
  · intro l hl
    rcases hname with h | h <;> subst h <;>
      match l, hl with
      | [], _ =>
        simp [processTag, parseGPSPosition, GPSLatitude, GPSLongitude,
          GPSLatitudeRef, GPSLongitudeRef]
      | [a], _ =>
        simp [processTag, parseGPSPosition, GPSLatitude, GPSLongitude,
          GPSLatitudeRef, GPSLongitudeRef]
      | [a, b], _ =>
        simp [processTag, parseGPSPosition, GPSLatitude, GPSLongitude,
          GPSLatitudeRef, GPSLongitudeRef]

theorem C1_ignore_or_fault_witness :
    processTag initialFields ⟨GPSLatitude, TagValue.other⟩ = some initialFields
      ∧ ∀ l : List Rational, l.length < 3 →
          processTag initialFields ⟨GPSLatitude, TagValue.rationals l⟩ = none :=
  C1_ignore_or_fault initialFields GPSLatitude TagValue.other (Or.inl rfl)
    (fun _ h => nomatch h)

/-- C2, counterexample: on the triplet {(34,1),(5,1),(1200,100)} the
formatter does not return "34°5'12.00''" with the single degree-sign
character U+00B0: the separator written in the source is the two-character
sequence U+00C2 U+00B0. -/
theorem C2_counterexample :
    parseGPSPosition [⟨34, 1⟩, ⟨5, 1⟩, ⟨1200, 100⟩] ≠ some "34°5'12.00''" := by decide

/-- C2 (amended): for the triplet {(34,1),(5,1),(1200,100)} the formatter
returns exactly "34Â°5'12.00''" — degrees and minutes by truncating integer
division, seconds rendered with exactly two digits after the decimal point,
concatenated as <deg><U+00C2 U+00B0><min>'<sec>''. -/
theorem C2_format_triplet :
    parseGPSPosition [⟨34, 1⟩, ⟨5, 1⟩, ⟨1200, 100⟩] = some "34Â°5'12.00''" := by decide

/-- C3, counterexample: a triplet with all three denominators zero does not
render as "0°0'0''" with the single degree-sign character U+00B0, because
the separator in the source is the two-character sequence U+00C2 U+00B0. -/
theorem C3_counterexample :
    parseGPSPosition [⟨4, 0⟩, ⟨5, 0⟩, ⟨6, 0⟩] ≠ some "0°0'0''" := by decide

/-- C3 (amended): for every RationalTriplet whose three denominators are all
zero, the formatter returns exactly "0Â°0'0''": each zero-denominator
component renders as "0" through the guarded branch, so no division by zero
is ever performed. -/
theorem C3_zero_denominators (n1 n2 n3 : Nat) :
    parseGPSPosition [⟨n1, 0⟩, ⟨n2, 0⟩, ⟨n3, 0⟩] = some "0Â°0'0''" := rfl

/-- C4: every successfully built record composes each axis independently:
the axis field is the sentinel "Not available" exactly when both the
extracted value and the direction are empty, and otherwise the value
immediately followed by the direction; consequently the fields are never the
empty string, and with no GPS tags present both fields are the sentinel. -/
theorem C4_record_composition (path : String) (tags : List ExifTag) (f : GPSFields)
    (h : processTags initialFields tags = some f) :
    buildRecordFromTags path tags
      = some ⟨path, composeFinal f.latitudeValue f.latitudeDirection,
              composeFinal f.longitudeValue f.longitudeDirection⟩
    ∧ (∀ v d : String,
        (v = "" ∧ d = "" → composeFinal v d = "Not available")
        ∧ (¬(v = "" ∧ d = "") → composeFinal v d = v ++ d)
        ∧ composeFinal v d ≠ "")
    ∧ ((∀ t ∈ tags, t.tagName ≠ GPSLatitudeRef ∧ t.tagName ≠ GPSLatitude
          ∧ t.tagName ≠ GPSLongitudeRef ∧ t.tagName ≠ GPSLongitude) →
        buildRecordFromTags path tags = some ⟨path, "Not available", "Not available"⟩) := by
  refine ⟨?_, ?_, ?_⟩
  · simp [buildRecordFromTags, h]
  · intro v d
    refine ⟨?_, ?_, ?_⟩
    · rintro ⟨rfl, rfl⟩
      rfl
    · intro hne
      have hc : v ++ d ≠ "" := fun he => hne ((append_eq_empty_iff v d).mp he)
      simp [composeFinal, hc]
    · intro he
      unfold composeFinal at he
      by_cases hc : v ++ d = ""
      · rw [if_pos hc] at he
        exact absurd he (by decide)
      · rw [if_neg hc] at he
        exact hc he
  · intro hno
    rw [buildRecordFromTags, processTags_notGPS initialFields tags hno]
    rfl

theorem C4_record_composition_witness :
    buildRecordFromTags "images/a.jpg" []
      = some ⟨"images/a.jpg",
          composeFinal initialFields.latitudeValue initialFields.latitudeDirection,
          composeFinal initialFields.longitudeValue initialFields.longitudeDirection⟩
    ∧ (∀ v d : String,
        (v = "" ∧ d = "" → composeFinal v d = "Not available")
        ∧ (¬(v = "" ∧ d = "") → composeFinal v d = v ++ d)
        ∧ composeFinal v d ≠ "")
    ∧ ((∀ t ∈ ([] : List ExifTag), t.tagName ≠ GPSLatitudeRef ∧ t.tagName ≠ GPSLatitude
          ∧ t.tagName ≠ GPSLongitudeRef ∧ t.tagName ≠ GPSLongitude) →
        buildRecordFromTags "images/a.jpg" []
          = some ⟨"images/a.jpg", "Not available", "Not available"⟩) :=
  C4_record_composition "images/a.jpg" [] initialFields rfl

/-- C5: over a visitation sequence of one corrupt image and two valid images
(no walk errors, all with allowed extensions, the corrupt one in any of the
three positions), the aggregation returns exactly the two valid records in
visitation order and logs exactly the one per-file error: a builder failure
never aborts the scan. -/
theorem C5_fault_isolation (a b c : VisitEvent) (r1 r2 : exifData) (m : String)
    (ha : a.walkErr = none) (hb : b.walkErr = none) (hc : c.walkErr = none)
    (hva : hasValidExtension a.name = true) (hvb : hasValidExtension b.name = true)
    (hvc : hasValidExtension c.name = true)
    (hpos :
        (extractExifDataFromImage a.path a.content = .err m
          ∧ extractExifDataFromImage b.path b.content = .ok r1
          ∧ extractExifDataFromImage c.path c.content = .ok r2)
      ∨ (extractExifDataFromImage a.path a.content = .ok r1
          ∧ extractExifDataFromImage b.path b.content = .err m
          ∧ extractExifDataFromImage c.path c.content = .ok r2)
      ∨ (extractExifDataFromImage a.path a.content = .ok r1
          ∧ extractExifDataFromImage b.path b.content = .ok r2
          ∧ extractExifDataFromImage c.path c.content = .err m)) :
    aggregate [a, b, c] = .ok [r1, r2] [m] := by
  rcases hpos with ⟨e1, e2, e3⟩ | ⟨e1, e2, e3⟩ | ⟨e1, e2, e3⟩ <;>
    simp [aggregate, aggregateAux, ha, hb, hc, hva, hvb, hvc, e1, e2, e3]

theorem C5_fault_isolation_witness :
    aggregate [⟨"images/a.jpg", "a.jpg", none, .tags []⟩,
               ⟨"images/b.jpg", "b.jpg", none, .unreadable "permission denied"⟩,
               ⟨"images/c.jpg", "c.jpg", none, .tags []⟩]
      = .ok [⟨"images/a.jpg", "Not available", "Not available"⟩,
             ⟨"images/c.jpg", "Not available", "Not available"⟩]
            ["error reading from file: images/b.jpg, with error: permission denied"] :=
  C5_fault_isolation _ _ _ _ _ _ rfl rfl rfl (by decide) (by decide) (by decide)
    (Or.inr (Or.inl ⟨rfl, by decide, rfl⟩))

/-- C6 (code-bug exhibit): when os.Create for the CSV report fails in the
default both-reports mode, createFile's log.Fatalf terminates the process,
so the HTML report is never attempted — contradicting the intended (and
otherwise dead) non-fatal error branch in writeToCSV. -/
theorem C6_createFile_fatal :
    mainModel false false [] ⟨.error "permission denied", .ok ()⟩
      = ⟨false, false, true, none⟩ := rfl

/-- C7: with the default extension set, an entry is eligible exactly when
its name ends with one of the four extensions under case-sensitive exact
suffix matching; in particular "photo.JPG" is excluded while "photo.jpg" is
included. -/
theorem C7_extension_filter :
    (∀ name : String, hasValidExtension name = true ↔
        ∃ ext ∈ allowedExtensions, ∃ pre : String, name = pre ++ ext)
    ∧ hasValidExtension "photo.JPG" = false
    ∧ hasValidExtension "photo.jpg" = true := by
  refine ⟨?_, by decide, by decide⟩
  intro name
  rw [hasValidExtension, List.any_eq_true]
  constructor
  · rintro ⟨ext, hmem, hsuf⟩
    refine ⟨ext, hmem, ?_⟩
    rw [hasSuffix] at hsuf
    obtain ⟨t, ht⟩ := List.isSuffixOf_iff_suffix.mp hsuf
    exact ⟨⟨t⟩, String.ext ht.symm⟩
  · rintro ⟨ext, hmem, pre, rfl⟩
    refine ⟨ext, hmem, ?_⟩
    rw [hasSuffix]
    exact List.isSuffixOf_iff_suffix.mpr ⟨pre.data, rfl⟩

/-- C8: a root path that does not exist makes WalkDir invoke the callback
once with a non-nil error for the root itself; the callback returns that
error, the aggregation fails with it, and main returns before either
os.Create is reached, so neither report file is created. -/
theorem C8_root_failure (root nm e : String) (content : FileContent)
    (htmlFlag csvFlag : Bool) (env : ReportEnv) :
    aggregate [⟨root, nm, some e, content⟩]
        = .error e ["error while walking directory: " ++ root ++ ", with error: " ++ e]
      ∧ mainModel htmlFlag csvFlag [⟨root, nm, some e, content⟩] env
        = ⟨false, false, false, some e⟩ :=
  ⟨rfl, rfl⟩

/-- C9: the aggregation is a pure function of the visitation sequence, so
two runs over the same fixed enumeration yield identical record collections
in identical order. -/
theorem C9_deterministic (events1 events2 : List VisitEvent)
    (h : events1 = events2) : aggregate events1 = aggregate events2 := by
  rw [h]

theorem C9_deterministic_witness :
    aggregate [⟨"images/a.jpg", "a.jpg", none, .tags []⟩]
      = aggregate [⟨"images/a.jpg", "a.jpg", none, .tags []⟩] :=
  C9_deterministic [⟨"images/a.jpg", "a.jpg", none, .tags []⟩]
    [⟨"images/a.jpg", "a.jpg", none, .tags []⟩] rfl

theorem aggregateAux_abort (bad : VisitEvent) (rest : List VisitEvent) (e : String)
    (hbad : bad.walkErr = some e) :
    ∀ (pre : List VisitEvent) (acc : List exifData) (logs : List String),
      (∀ ev ∈ pre, ev.walkErr = none
          ∧ extractExifDataFromImage ev.path ev.content ≠ .fault) →
      ∃ logs2, aggregateAux acc logs (pre ++ bad :: rest) = .error e logs2 := by
  intro pre
  induction pre with
  | nil =>
    intro acc logs _
    exact ⟨logs ++ ["error while walking directory: " ++ bad.path ++ ", with error: " ++ e],
      by simp [aggregateAux, hbad]⟩
  | cons ev pre ih =>
    intro acc logs hpre
    obtain ⟨hnone, hnf⟩ := hpre ev (List.mem_cons_self ev pre)
    have hrest := fun u hu => hpre u (List.mem_cons_of_mem ev hu)
    rw [List.cons_append]
    by_cases hv : hasValidExtension ev.name
    · cases hbuild : extractExifDataFromImage ev.path ev.content with
      | ok r =>
        simpa [aggregateAux, hnone, hv, hbuild] using ih (acc ++ [r]) logs hrest
      | err m =>
        simpa [aggregateAux, hnone, hv, hbuild] using ih acc (logs ++ [m]) hrest
      | fault => exact absurd hbuild hnf
    · simpa [aggregateAux, hnone, hv] using ih acc logs hrest

/-- C10 (implicit): any non-nil walk error delivered for any visited entry —
not only the root — is returned from the callback, aborting the whole
traversal; main then logs it and returns, so no report is written and every
record accumulated before the error is discarded. -/
theorem C10_midwalk_abort (pre : List VisitEvent) (bad : VisitEvent)
    (rest : List VisitEvent) (e : String) (htmlFlag csvFlag : Bool) (env : ReportEnv)
    (hpre : ∀ ev ∈ pre, ev.walkErr = none
        ∧ extractExifDataFromImage ev.path ev.content ≠ .fault)
    (hbad : bad.walkErr = some e) :
    (∃ logs, aggregate (pre ++ bad :: rest) = .error e logs)
      ∧ mainModel htmlFlag csvFlag (pre ++ bad :: rest) env
        = ⟨false, false, false, some e⟩ := by
  obtain ⟨logs2, hagg⟩ := aggregateAux_abort bad rest e hbad pre [] [] hpre
  have hagg2 : aggregate (pre ++ bad :: rest) = .error e logs2 := hagg
  exact ⟨⟨logs2, hagg2⟩, by simp [mainModel, hagg2]⟩

theorem C10_midwalk_abort_witness :
    (∃ logs, aggregate ([⟨"images/a.jpg", "a.jpg", none, .tags []⟩] ++
          ⟨"images/sub", "sub", some "permission denied", .tags []⟩ :: [])
        = .error "permission denied" logs)
      ∧ mainModel false false ([⟨"images/a.jpg", "a.jpg", none, .tags []⟩] ++
          ⟨"images/sub", "sub", some "permission denied", .tags []⟩ :: []) ⟨.ok (), .ok ()⟩
        = ⟨false, false, false, some "permission denied"⟩ :=
  C10_midwalk_abort [⟨"images/a.jpg", "a.jpg", none, .tags []⟩]
    ⟨"images/sub", "sub", some "permission denied", .tags []⟩ [] "permission denied"
    false false ⟨.ok (), .ok ()⟩ (by decide) rfl

end ExifGps
